import Mathlib

set_option maxRecDepth 100000

/-!
# Verification of mpts (multithreaded ping of two /24 subnets)

Shallow embedding of `mpts.py`.  The program enumerates the addresses of two
IPv4 /24 blocks, pings each address (up to three attempts), collects the
failing targets per block, and classifies the failing final octets into
"only block 1", "only block 2" and "common".

Modelling choices:
* A dotted-quad address string `"a.b.c.d"` is represented by its four parsed
  octets (structure `IPv4`); the final octet extracted by
  `int(str(ip).split(".")[3])` is the field `d`.
* A `/24` network (a `ipaddress.IPv4Network` that parsed successfully from a
  string ending in `"/24"`) is represented by its three prefix octets
  (structure `Cidr24`); iterating the network yields the 256 addresses with
  final octet `0 .. 255` in ascending order.
* The `skip` parameter of `initiate_ping_queues` is `""` (no `--skip` option,
  never equal to an `int` octet) or an integer octet: an `Option Nat`.
* The outcome of each `ping` subprocess is abstracted, exactly as the tests
  mock `get_returncode`, by a return-code oracle giving an integer return
  code per target and attempt number.
* The two worker pools process each enqueued target exactly once and append
  the failing ones to the per-range failure list; the embedding runs this
  sequentially in enumeration order (one admissible schedule).  Claims about
  the real-time thread interleavings themselves are out of scope of the
  embedding.
* `print` calls are observability only and are not modelled.
-/

namespace Mpts

/-- A dotted-quad IPv4 address `a.b.c.d`, represented by its four octets. -/
structure IPv4 where
  a : Nat
  b : Nat
  c : Nat
  d : Nat
deriving DecidableEq

/-- A /24 network, represented by the three octets of its network part
(`p1.p2.p3.0/24`). -/
structure Cidr24 where
  p1 : Nat
  p2 : Nat
  p3 : Nat
deriving DecidableEq

/-- The `final_octet == skip` comparison in `initiate_ping_queues`
(mpts.py lines 51 and 58): when no `--skip` was given, `skip` is the string
`""` and the comparison with an `int` octet is always false. -/
def skipMatch : Option Nat → Nat → Bool
  | none, _ => false
  | some s, d => d == s

/-- The address of the host at final octet `k` of network `net`. -/
def mkAddr (net : Cidr24) (k : Nat) : IPv4 :=
  ⟨net.p1, net.p2, net.p3, k⟩

/-- The per-range target-list construction of `initiate_ping_queues`
(mpts.py lines 47-61): iterate the 256 addresses of the /24 network in
ascending order of final octet, drop final octet `0` and the skipped octet,
and pair each remaining final octet with its address. -/
def rangeTargets (net : Cidr24) (skip : Option Nat) : List (Nat × IPv4) :=
  (List.range 256).filterMap fun k =>
    if k == 0 || skipMatch skip k then none
    else some (k, mkAddr net k)

/-- The retry loop of `ping_thread` (mpts.py lines 110-130):
`attempt` starts at 1 and the loop runs `while attempt < 4`; a return code
of 0 breaks with outcome Up, a nonzero code on attempt 3 appends the target
to the failure list and breaks, otherwise `attempt` is incremented.  The
first argument of the oracle `rc` is the attempt number.  Structural fuel
(always ≥ the remaining iterations when called with fuel 4, attempt 1)
makes the function computable by kernel reduction; the `false` fallbacks
are never reached from `ping_thread_down`. -/
def pingLoop (rc : Nat → Int) : Nat → Nat → Bool
  | 0, _ => false
  | fuel + 1, attempt =>
    if attempt < 4 then
      if rc attempt == 0 then false
      else if attempt == 3 then true
      else pingLoop rc fuel (attempt + 1)
    else false

/-- Whether `ping_thread` records the target as failed (appends it to
`faillist`): the loop entered with `attempt = 1`. -/
def ping_thread_down (rc : Nat → Int) : Bool :=
  pingLoop rc 4 1

/-- Number of `ping` subprocesses spawned by the retry loop of
`ping_thread`, same recursion structure as `pingLoop`. -/
def pingCount (rc : Nat → Int) : Nat → Nat → Nat
  | 0, _ => 0
  | fuel + 1, attempt =>
    if attempt < 4 then
      if rc attempt == 0 then 1
      else if attempt == 3 then 1
      else 1 + pingCount rc fuel (attempt + 1)
    else 0

/-- Number of ping attempts issued for one target. -/
def attemptsUsed (rc : Nat → Int) : Nat :=
  pingCount rc 4 1

/-- One worker pool of `initiate_ping_queues`: every enqueued target is
processed by `ping_thread` exactly once and the failing ones are appended
to the shared failure list.  `rcOf` gives the return-code oracle of a
target (the mockable `get_returncode` seam). -/
def runPool (targets : List (Nat × IPv4)) (rcOf : Nat × IPv4 → Nat → Int) :
    List (Nat × IPv4) :=
  targets.filter fun t => ping_thread_down (rcOf t)

/-- `print_results` (mpts.py lines 172-206): from the two failure lists,
build the lists of failing final octets, split the first list's octets in
one pass into "not in the second list" (`excl1`) and "in the second list"
(`common`), filter the second list's octets down to those not in the first
(`excl2`), sort all three ascending, and return the five lists. -/
def print_results (f1 f2 : List (Nat × IPv4)) :
    List (Nat × IPv4) × List (Nat × IPv4) × List Nat × List Nat × List Nat :=
  let o1 := f1.map Prod.fst
  let o2 := f2.map Prod.fst
  let pr := o1.partition fun o => decide (o ∉ o2)
  let excl1 := List.insertionSort (· ≤ ·) pr.1
  let common := List.insertionSort (· ≤ ·) pr.2
  let excl2 := List.insertionSort (· ≤ ·) (o2.filter fun o => decide (o ∉ o1))
  (f1, f2, excl1, excl2, common)

/-- `initiate_ping_queues` (mpts.py lines 26-90): build both target lists,
run the two pools to completion (both queues joined), then classify the two
failure lists with `print_results`. -/
def initiate_ping_queues (c1 c2 : Cidr24) (skip : Option Nat)
    (rcOf : Nat × IPv4 → Nat → Int) :
    List (Nat × IPv4) × List (Nat × IPv4) × List Nat × List Nat × List Nat :=
  print_results (runPool (rangeTargets c1 skip) rcOf)
    (runPool (rangeTargets c2 skip) rcOf)

/-- The default `--cidr1` subnet `192.168.1.0/24` of `main`. -/
def defaultNet1 : Cidr24 := ⟨192, 168, 1⟩

/-- The default `--cidr2` subnet `192.168.2.0/24` of `main`. -/
def defaultNet2 : Cidr24 := ⟨192, 168, 2⟩

/-- Outcome of the `--skip` option handling in `main`. -/
inductive SkipOutcome where
  | accepted (k : Nat)
  | usageExit
  | uncaughtAssertionError
deriving DecidableEq

/-- Models the `--skip` option handling in `main` (mpts.py lines 245-253).
The input is the result of `int(arg)`: `none` when `int` raised
`ValueError` (a non-integer argument), `some n` otherwise.  The code runs
`assert 0 <= skip <= 255` inside a `try` whose handler clause is
`except ValueError or AssertionError`; in Python the expression
`ValueError or AssertionError` evaluates to `ValueError`, so only
`ValueError` is caught (printing the octet-range message and exiting
cleanly via `sys.exit()`), while an out-of-range integer raises
`AssertionError`, which propagates out of `main` uncaught. -/
def handle_skip_option : Option Int → SkipOutcome
  | none => .usageExit
  | some n =>
    if 0 ≤ n ∧ n ≤ 255 then .accepted n.toNat
    else .uncaughtAssertionError

/-- Configuration failures of the range arguments. -/
inductive ConfigError where
  | badSuffix
  | invalidNetwork
deriving DecidableEq

/-- A `--cidr1`/`--cidr2` argument string, abstracted by the two facts the
program inspects: whether its last three characters are `"/24"` (the check
in `main`, mpts.py lines 235-243) and the result of
`ipaddress.IPv4Network(arg)` (`none` when the constructor raises
`ValueError`; a string that both ends in `"/24"` and parses denotes a valid
/24, i.e. exactly-256-address, block). -/
structure RangeArg where
  endsSlash24 : Bool
  parsed : Option Cidr24

/-- Total number of `ping` subprocesses spawned for one range. -/
def attemptsIssued (net : Cidr24) (skip : Option Nat)
    (rcOf : Nat × IPv4 → Nat → Int) : Nat :=
  ((rangeTargets net skip).map fun t => attemptsUsed (rcOf t)).sum

/-- Models `main` on possibly invalid range arguments: `main` exits with
the CIDR/24-only message if a supplied argument does not end in `"/24"`;
otherwise `initiate_ping_queues` constructs `ipaddress.IPv4Network` for
both ranges while building the two target lists (mpts.py lines 47-61),
which in the source precedes every `Thread(...).start()` call and every
queue insertion, so a `ValueError` raised there escapes before any worker
thread exists and before any ping subprocess is spawned.  The `Nat` paired
with the result counts the ping attempts issued during the sweep. -/
def main_with_args (a1 a2 : RangeArg) (skip : Option Nat)
    (rcOf : Nat × IPv4 → Nat → Int) :
    Except ConfigError
      ((List (Nat × IPv4) × List (Nat × IPv4) ×
        List Nat × List Nat × List Nat) × Nat) :=
  if !a1.endsSlash24 || !a2.endsSlash24 then .error .badSuffix
  else
    match a1.parsed, a2.parsed with
    | some n1, some n2 =>
      .ok (initiate_ping_queues n1 n2 skip rcOf,
        attemptsIssued n1 skip rcOf + attemptsIssued n2 skip rcOf)
    | _, _ => .error .invalidNetwork

/-- Number of ping subprocesses observed over a whole invocation of
`main`: zero whenever the invocation ends in a configuration error. -/
def pings_spawned (a1 a2 : RangeArg) (skip : Option Nat)
    (rcOf : Nat × IPv4 → Nat → Int) : Nat :=
  match main_with_args a1 a2 skip rcOf with
  | .error _ => 0
  | .ok (_, n) => n

/-! ## Lemmas about `print_results` -/

lemma print_results_fst (f1 f2 : List (Nat × IPv4)) :
    (print_results f1 f2).1 = f1 := rfl

lemma print_results_snd (f1 f2 : List (Nat × IPv4)) :
    (print_results f1 f2).2.1 = f2 := rfl

lemma print_results_excl1_eq (f1 f2 : List (Nat × IPv4)) :
    (print_results f1 f2).2.2.1
      = List.insertionSort (· ≤ ·)
          ((f1.map Prod.fst).filter fun o => decide (o ∉ f2.map Prod.fst)) := by
  simp [print_results, List.partition_eq_filter_filter]

lemma print_results_excl2_eq (f1 f2 : List (Nat × IPv4)) :
    (print_results f1 f2).2.2.2.1
      = List.insertionSort (· ≤ ·)
          ((f2.map Prod.fst).filter fun o => decide (o ∉ f1.map Prod.fst)) := rfl

lemma print_results_common_eq (f1 f2 : List (Nat × IPv4)) :
    (print_results f1 f2).2.2.2.2
      = List.insertionSort (· ≤ ·)
          ((f1.map Prod.fst).filter fun o => decide (o ∈ f2.map Prod.fst)) := by
  simp only [print_results, List.partition_eq_filter_filter]
  refine congrArg _ (List.filter_congr fun x _ => ?_)
  simp [Function.comp, Bool.not_not]

lemma mem_excl1_iff (f1 f2 : List (Nat × IPv4)) (o : Nat) :
    o ∈ (print_results f1 f2).2.2.1 ↔
      o ∈ f1.map Prod.fst ∧ o ∉ f2.map Prod.fst := by
  rw [print_results_excl1_eq,
    List.Perm.mem_iff (List.perm_insertionSort _ _)]
  simp [List.mem_filter]

lemma mem_excl2_iff (f1 f2 : List (Nat × IPv4)) (o : Nat) :
    o ∈ (print_results f1 f2).2.2.2.1 ↔
      o ∈ f2.map Prod.fst ∧ o ∉ f1.map Prod.fst := by
  rw [print_results_excl2_eq,
    List.Perm.mem_iff (List.perm_insertionSort _ _)]
  simp [List.mem_filter]

lemma mem_common_iff (f1 f2 : List (Nat × IPv4)) (o : Nat) :
    o ∈ (print_results f1 f2).2.2.2.2 ↔
      o ∈ f1.map Prod.fst ∧ o ∈ f2.map Prod.fst := by
  rw [print_results_common_eq,
    List.Perm.mem_iff (List.perm_insertionSort _ _)]
  simp [List.mem_filter]

lemma sorted_excl1 (f1 f2 : List (Nat × IPv4)) :
    List.Sorted (· ≤ ·) (print_results f1 f2).2.2.1 := by
  rw [print_results_excl1_eq]; exact List.sorted_insertionSort _ _

lemma sorted_excl2 (f1 f2 : List (Nat × IPv4)) :
    List.Sorted (· ≤ ·) (print_results f1 f2).2.2.2.1 := by
  rw [print_results_excl2_eq]; exact List.sorted_insertionSort _ _

lemma sorted_common (f1 f2 : List (Nat × IPv4)) :
    List.Sorted (· ≤ ·) (print_results f1 f2).2.2.2.2 := by
  rw [print_results_common_eq]; exact List.sorted_insertionSort _ _

/-- Claim C1: for every pair of failure lists, the classification step of
`print_results` returns `onlyA` (third component) = the ascending sorted
sequence of the offsets occurring among `failuresA`'s offsets but not among
`failuresB`'s, `onlyB` (fourth component) = dually, and `common` (fifth
component) = the ascending sorted sequence of the offsets occurring in
both; membership is decided by offset value only, irrespective of the
paired addresses. -/
theorem claim1_classification (f1 f2 : List (Nat × IPv4)) :
    List.Sorted (· ≤ ·) (print_results f1 f2).2.2.1 ∧
    List.Sorted (· ≤ ·) (print_results f1 f2).2.2.2.1 ∧
    List.Sorted (· ≤ ·) (print_results f1 f2).2.2.2.2 ∧
    (∀ o : Nat, o ∈ (print_results f1 f2).2.2.1 ↔
      o ∈ f1.map Prod.fst ∧ o ∉ f2.map Prod.fst) ∧
    (∀ o : Nat, o ∈ (print_results f1 f2).2.2.2.1 ↔
      o ∈ f2.map Prod.fst ∧ o ∉ f1.map Prod.fst) ∧
    (∀ o : Nat, o ∈ (print_results f1 f2).2.2.2.2 ↔
      o ∈ f1.map Prod.fst ∧ o ∈ f2.map Prod.fst) :=
  ⟨sorted_excl1 f1 f2, sorted_excl2 f1 f2, sorted_common f1 f2,
    mem_excl1_iff f1 f2, mem_excl2_iff f1 f2, mem_common_iff f1 f2⟩

/-- Claim C10 (implicit invariant): the three derived offset sequences of
`print_results` are pairwise disjoint (no offset occurs in more than one of
`onlyA`, `onlyB`, `common`), and the two input failure lists are returned
unchanged as the first two components of the result tuple. -/
theorem claim10_disjoint_and_unchanged (f1 f2 : List (Nat × IPv4)) :
    (print_results f1 f2).1 = f1 ∧
    (print_results f1 f2).2.1 = f2 ∧
    (∀ o : Nat, ¬(o ∈ (print_results f1 f2).2.2.1 ∧
      o ∈ (print_results f1 f2).2.2.2.1)) ∧
    (∀ o : Nat, ¬(o ∈ (print_results f1 f2).2.2.1 ∧
      o ∈ (print_results f1 f2).2.2.2.2)) ∧
    (∀ o : Nat, ¬(o ∈ (print_results f1 f2).2.2.2.1 ∧
      o ∈ (print_results f1 f2).2.2.2.2)) := by
  refine ⟨print_results_fst f1 f2, print_results_snd f1 f2, ?_, ?_, ?_⟩
  · intro o ⟨h1, h2⟩
    exact ((mem_excl1_iff f1 f2 o).mp h1).2 ((mem_excl2_iff f1 f2 o).mp h2).1
  · intro o ⟨h1, h2⟩
    exact ((mem_excl1_iff f1 f2 o).mp h1).2 ((mem_common_iff f1 f2 o).mp h2).2
  · intro o ⟨h1, h2⟩
    exact ((mem_excl2_iff f1 f2 o).mp h1).2 ((mem_common_iff f1 f2 o).mp h2).1

/-! ## Lemmas about the retry loop of `ping_thread` -/

lemma ping_thread_down_eq (rc : Nat → Int) :
    ping_thread_down rc
      = (decide (rc 1 ≠ 0) && decide (rc 2 ≠ 0) && decide (rc 3 ≠ 0)) := by
  by_cases h1 : rc 1 = 0 <;> by_cases h2 : rc 2 = 0 <;> by_cases h3 : rc 3 = 0 <;>
    simp [ping_thread_down, pingLoop, h1, h2, h3]

lemma ping_thread_down_iff (rc : Nat → Int) :
    ping_thread_down rc = true ↔ rc 1 ≠ 0 ∧ rc 2 ≠ 0 ∧ rc 3 ≠ 0 := by
  rw [ping_thread_down_eq]
  by_cases h1 : rc 1 = 0 <;> by_cases h2 : rc 2 = 0 <;> by_cases h3 : rc 3 = 0 <;>
    simp [h1, h2, h3]

lemma mem_runPool_iff (targets : List (Nat × IPv4))
    (rcOf : Nat × IPv4 → Nat → Int) (t : Nat × IPv4) :
    t ∈ runPool targets rcOf ↔ t ∈ targets ∧ ping_thread_down (rcOf t) = true := by
  simp [runPool, List.mem_filter]

/-- Claim C3: the per-target probe logic performs at most 3 attempts; if the
first attempt (or any later one) returns code 0 it stops immediately with
outcome Up and does not record the target as failed; the target is recorded
in the failure list iff all 3 attempts return a nonzero code, and the pool
appends it exactly once (the failure list of a duplicate-free target list,
as produced by the enumeration, is duplicate-free, so a recorded target
occurs in it exactly once). -/
theorem claim3_retry_policy (rc : Nat → Int) :
    attemptsUsed rc ≤ 3 ∧
    (ping_thread_down rc = true ↔ rc 1 ≠ 0 ∧ rc 2 ≠ 0 ∧ rc 3 ≠ 0) ∧
    (rc 1 = 0 → attemptsUsed rc = 1 ∧ ping_thread_down rc = false) ∧
    (rc 1 ≠ 0 → rc 2 = 0 → attemptsUsed rc = 2 ∧ ping_thread_down rc = false) ∧
    (rc 1 ≠ 0 → rc 2 ≠ 0 → attemptsUsed rc = 3) ∧
    (∀ (targets : List (Nat × IPv4)) (rcOf : Nat × IPv4 → Nat → Int),
      targets.Nodup →
      (runPool targets rcOf).Nodup ∧
      (∀ t : Nat × IPv4, t ∈ runPool targets rcOf ↔
        t ∈ targets ∧ ping_thread_down (rcOf t) = true)) := by
  refine ⟨?_, ping_thread_down_iff rc, ?_, ?_, ?_, ?_⟩
  · by_cases h1 : rc 1 = 0 <;> by_cases h2 : rc 2 = 0 <;> by_cases h3 : rc 3 = 0 <;>
      simp [attemptsUsed, pingCount, h1, h2, h3]
  · intro h1
    simp [attemptsUsed, pingCount, ping_thread_down, pingLoop, h1]
  · intro h1 h2
    simp [attemptsUsed, pingCount, ping_thread_down, pingLoop, h1, h2]
  · intro h1 h2
    simp [attemptsUsed, pingCount, h1, h2]
  · intro targets rcOf hnd
    exact ⟨hnd.filter _, mem_runPool_iff targets rcOf⟩

/-- Witness for C3 at concrete inputs: an oracle whose three attempts all
fail, a one-target pool in which that target is recorded without
duplication, and the first-attempt-succeeds oracle using a single
attempt. -/
theorem claim3_retry_policy_witness :
    ((runPool [(7, mkAddr defaultNet1 7)] fun _ _ => 1).Nodup ∧
      (∀ t : Nat × IPv4, t ∈ runPool [(7, mkAddr defaultNet1 7)] (fun _ _ => 1) ↔
        t ∈ [(7, mkAddr defaultNet1 7)] ∧
          ping_thread_down (fun _ => (1 : Int)) = true)) ∧
    (attemptsUsed (fun _ => (0 : Int)) = 1 ∧
      ping_thread_down (fun _ => (0 : Int)) = false) :=
  ⟨(claim3_retry_policy fun _ => (1 : Int)).2.2.2.2.2
      [(7, mkAddr defaultNet1 7)] (fun _ _ => (1 : Int)) (by simp),
    (claim3_retry_policy fun _ => (0 : Int)).2.2.1 rfl⟩

/-! ## Lemmas about the address enumeration -/

lemma filterMap_if_map_fst (c : Nat → Bool) (g : Nat → IPv4) :
    ∀ l : List Nat,
      ((l.filterMap fun k => if c k then none else some (k, g k)).map Prod.fst)
        = l.filter fun k => !(c k) := by
  intro l
  induction l with
  | nil => rfl
  | cons k t ih =>
    by_cases h : c k = true <;> simp [List.filterMap_cons, List.filter_cons, h, ih]

lemma map_fst_rangeTargets (net : Cidr24) (skip : Option Nat) :
    (rangeTargets net skip).map Prod.fst
      = (List.range 256).filter fun k => !(k == 0 || skipMatch skip k) := by
  exact filterMap_if_map_fst _ _ _

lemma rangeTargets_none_offsets (net : Cidr24) :
    (rangeTargets net none).map Prod.fst = List.range' 1 255 := by
  rw [map_fst_rangeTargets]
  decide

lemma rangeTargets_some_offsets (net : Cidr24) (K : Nat) :
    (rangeTargets net (some K)).map Prod.fst
      = (List.range' 1 255).filter fun k => !(k == K) := by
  have h1 : List.range' 1 255 = (List.range 256).filter (fun k => !(k == 0)) := by
    decide
  rw [map_fst_rangeTargets, h1, List.filter_filter]
  refine List.filter_congr fun x _ => ?_
  by_cases h0 : x = 0 <;> by_cases hK : x = K <;>
    simp [h0, hK, skipMatch, Bool.and_comm]

lemma length_rangeTargets_none (net : Cidr24) :
    (rangeTargets net none).length = 255 := by
  have h := congrArg List.length (rangeTargets_none_offsets net)
  simpa using h

lemma length_rangeTargets_some (net : Cidr24) (K : Nat)
    (h1 : 1 ≤ K) (h2 : K ≤ 255) :
    (rangeTargets net (some K)).length = 254 := by
  have h := congrArg List.length (rangeTargets_some_offsets net K)
  rw [List.length_map] at h
  rw [h]
  have hn : (List.range' 1 255).Nodup := by decide
  have hm : K ∈ List.range' 1 255 := List.mem_range'_1.mpr ⟨h1, by omega⟩
  have he : (List.range' 1 255).erase K
      = (List.range' 1 255).filter fun k => !(k == K) := by
    rw [List.Nodup.erase_eq_filter hn]
    exact List.filter_congr fun x _ => rfl
  rw [← he, List.length_erase_of_mem hm]
  simp

lemma snd_of_mem_rangeTargets (net : Cidr24) (skip : Option Nat) :
    ∀ t ∈ rangeTargets net skip, t.2 = mkAddr net t.1 := by
  intro t ht
  simp only [rangeTargets, List.mem_filterMap, List.mem_range] at ht
  obtain ⟨k, -, hsome⟩ := ht
  split at hsome
  · cases hsome
  · cases hsome
    rfl

lemma fst_of_mem_rangeTargets_ne (net : Cidr24) (K : Nat) :
    ∀ t ∈ rangeTargets net (some K), t.1 ≠ K := by
  intro t ht
  have h : t.1 ∈ (rangeTargets net (some K)).map Prod.fst :=
    List.mem_map_of_mem Prod.fst ht
  rw [rangeTargets_some_offsets] at h
  have h' := (List.mem_filter.mp h).2
  intro hK
  simp [hK] at h'

/-- Claim C2 counterexample: for the default `/24` range with no offset
excluded, the enumeration yields 255 targets, not 254, and offset 255 (the
broadcast address) does appear — the code only skips offset 0, and its own
test suite asserts 255 entries. -/
theorem claim2_counterexample :
    (rangeTargets defaultNet1 none).length ≠ 254 ∧
    (255 : Nat) ∈ (rangeTargets defaultNet1 none).map Prod.fst := by
  decide

/-- Claim C2 (amended): for every valid /24 range, the enumeration yields
exactly 255 targets when no offset is excluded and 254 when one offset in
[1,255] is excluded; the offsets produced are exactly 1..255 in ascending
order (offset 0 never appears, offset 255 — the broadcast address — does
appear), each paired with the address of that offset in the range. -/
theorem claim2_enumeration_amended (net : Cidr24) :
    (rangeTargets net none).map Prod.fst = List.range' 1 255 ∧
    (rangeTargets net none).length = 255 ∧
    (∀ t ∈ rangeTargets net none, t.2 = mkAddr net t.1) ∧
    (∀ K : Nat, (rangeTargets net (some K)).map Prod.fst
      = (List.range' 1 255).filter fun k => !(k == K)) ∧
    (∀ K : Nat, 1 ≤ K → K ≤ 255 →
      (rangeTargets net (some K)).length = 254) ∧
    (∀ K : Nat, ∀ t ∈ rangeTargets net (some K), t.2 = mkAddr net t.1) :=
  ⟨rangeTargets_none_offsets net, length_rangeTargets_none net,
    snd_of_mem_rangeTargets net none, rangeTargets_some_offsets net,
    length_rangeTargets_some net, fun K => snd_of_mem_rangeTargets net (some K)⟩

/-- Witness for the amended C2 at a concrete range and excluded offset. -/
theorem claim2_enumeration_amended_witness :
    (rangeTargets defaultNet1 (some 42)).length = 254 :=
  (claim2_enumeration_amended defaultNet1).2.2.2.2.1 42 (by decide) (by decide)

/-! ## Sweep-level lemmas -/

lemma initiate_fst (c1 c2 : Cidr24) (skip : Option Nat)
    (rcOf : Nat × IPv4 → Nat → Int) :
    (initiate_ping_queues c1 c2 skip rcOf).1
      = runPool (rangeTargets c1 skip) rcOf := rfl

lemma initiate_snd (c1 c2 : Cidr24) (skip : Option Nat)
    (rcOf : Nat × IPv4 → Nat → Int) :
    (initiate_ping_queues c1 c2 skip rcOf).2.1
      = runPool (rangeTargets c2 skip) rcOf := rfl

lemma not_mem_pool_offsets (net : Cidr24) (K : Nat)
    (rcOf : Nat × IPv4 → Nat → Int) :
    K ∉ (runPool (rangeTargets net (some K)) rcOf).map Prod.fst := by
  intro h
  obtain ⟨t, ht, hfst⟩ := List.mem_map.mp h
  exact fst_of_mem_rangeTargets_ne net K t
    ((mem_runPool_iff _ _ t).mp ht).1 hfst

/-- Claim C5: for every excluded offset `K`, after a sweep `K` appears
neither among the offsets of either range's failure list nor in any of the
three derived offset sequences `onlyA`, `onlyB`, `common`. -/
theorem claim5_excluded_offset (c1 c2 : Cidr24) (K : Nat)
    (rcOf : Nat × IPv4 → Nat → Int) :
    (∀ t ∈ (initiate_ping_queues c1 c2 (some K) rcOf).1, t.1 ≠ K) ∧
    (∀ t ∈ (initiate_ping_queues c1 c2 (some K) rcOf).2.1, t.1 ≠ K) ∧
    K ∉ (initiate_ping_queues c1 c2 (some K) rcOf).2.2.1 ∧
    K ∉ (initiate_ping_queues c1 c2 (some K) rcOf).2.2.2.1 ∧
    K ∉ (initiate_ping_queues c1 c2 (some K) rcOf).2.2.2.2 := by
  refine ⟨?_, ?_, ?_, ?_, ?_⟩
  · intro t ht
    exact fst_of_mem_rangeTargets_ne c1 K t ((mem_runPool_iff _ _ t).mp ht).1
  · intro t ht
    exact fst_of_mem_rangeTargets_ne c2 K t ((mem_runPool_iff _ _ t).mp ht).1
  · intro h
    exact not_mem_pool_offsets c1 K rcOf ((mem_excl1_iff _ _ K).mp h).1
  · intro h
    exact not_mem_pool_offsets c2 K rcOf ((mem_excl2_iff _ _ K).mp h).1
  · intro h
    exact not_mem_pool_offsets c1 K rcOf ((mem_common_iff _ _ K).mp h).1

/-- Claim C9 (implicit invariant): every entry of a returned failure list
is exactly a tuple enumerated for that range, its offset component equals
the final octet of its paired address, and the address's first three octets
equal the range's network part. -/
theorem claim9_failure_entries (c1 c2 : Cidr24) (skip : Option Nat)
    (rcOf : Nat × IPv4 → Nat → Int) :
    (∀ t ∈ (initiate_ping_queues c1 c2 skip rcOf).1,
      t ∈ rangeTargets c1 skip ∧ t.2.d = t.1 ∧
      t.2.a = c1.p1 ∧ t.2.b = c1.p2 ∧ t.2.c = c1.p3) ∧
    (∀ t ∈ (initiate_ping_queues c1 c2 skip rcOf).2.1,
      t ∈ rangeTargets c2 skip ∧ t.2.d = t.1 ∧
      t.2.a = c2.p1 ∧ t.2.b = c2.p2 ∧ t.2.c = c2.p3) := by
  constructor
  · intro t ht
    have hmem : t ∈ rangeTargets c1 skip := ((mem_runPool_iff _ _ t).mp ht).1
    have haddr := snd_of_mem_rangeTargets c1 skip t hmem
    rw [haddr]
    exact ⟨hmem, rfl, rfl, rfl, rfl⟩
  · intro t ht
    have hmem : t ∈ rangeTargets c2 skip := ((mem_runPool_iff _ _ t).mp ht).1
    have haddr := snd_of_mem_rangeTargets c2 skip t hmem
    rw [haddr]
    exact ⟨hmem, rfl, rfl, rfl, rfl⟩

/-- Claim C4 counterexample: with every probe attempt forced to fail and no
offset excluded, the first default range's failure list has 255 entries,
not 254 (the code's own test suite asserts 255). -/
theorem claim4_counterexample :
    (initiate_ping_queues defaultNet1 defaultNet2 none fun _ _ => 1).1.length
      ≠ 254 := by
  decide

/-- Claim C4 (amended): if every probe attempt is forced to fail (return
code 1) and no offset is excluded, then for the default two /24 ranges each
range's failure list is the full 255-entry target list, `onlyA` and `onlyB`
are empty, and `common` is the 255 offsets 1..255; dually, if every probe
attempt is forced to succeed (return code 0), both failure lists and all
three derived sequences are empty. -/
theorem claim4_forced_outcomes_amended :
    (initiate_ping_queues defaultNet1 defaultNet2 none fun _ _ => 1)
      = (rangeTargets defaultNet1 none, rangeTargets defaultNet2 none,
        [], [], List.range' 1 255) ∧
    (rangeTargets defaultNet1 none).length = 255 ∧
    (rangeTargets defaultNet2 none).length = 255 ∧
    (initiate_ping_queues defaultNet1 defaultNet2 none fun _ _ => 0)
      = ([], [], [], [], []) := by
  refine ⟨?_, length_rangeTargets_none defaultNet1,
    length_rangeTargets_none defaultNet2, ?_⟩ <;> decide

/-- Claim C6, evaluated at the failing input: for a supplied `--skip`
argument whose integer value is outside [0,255] (e.g. 300 or 256) the
handling does NOT produce the usage message and clean exit that the claim
(and the code's own error message for this case) calls for: the bounds
`assert` raises an `AssertionError` that the `except ValueError` clause —
`except ValueError or AssertionError` catches only `ValueError` — lets
escape.  A non-integer argument is the only case reaching the clean
usage-message exit. -/
theorem claim6_skip_out_of_range_uncaught :
    handle_skip_option (some 300) = SkipOutcome.uncaughtAssertionError ∧
    handle_skip_option (some 300) ≠ SkipOutcome.usageExit ∧
    handle_skip_option (some 256) = SkipOutcome.uncaughtAssertionError ∧
    handle_skip_option none = SkipOutcome.usageExit ∧
    handle_skip_option (some 42) = SkipOutcome.accepted 42 := by
  decide

/-- Claim C7: a range argument that does not denote exactly a 256-address
block (it fails the `"/24"` suffix check, or `ipaddress.IPv4Network`
rejects it) makes the invocation end in a configuration failure, raised
before any worker starts, and no ping subprocess is ever spawned. -/
theorem claim7_invalid_range_rejected (a1 a2 : RangeArg) (skip : Option Nat)
    (rcOf : Nat × IPv4 → Nat → Int)
    (h : a1.endsSlash24 = false ∨ a1.parsed = none ∨
      a2.endsSlash24 = false ∨ a2.parsed = none) :
    (∃ e, main_with_args a1 a2 skip rcOf = Except.error e) ∧
    pings_spawned a1 a2 skip rcOf = 0 := by
  obtain ⟨s1, p1⟩ := a1
  obtain ⟨s2, p2⟩ := a2
  cases s1 <;> cases s2 <;> cases p1 <;> cases p2 <;>
    simp_all [main_with_args, pings_spawned]

/-- Witness for C7: the argument pair modelling
`--cidr1 192.168.1.7/24 --cidr2 192.168.2.0/24` (the first ends in "/24"
but `IPv4Network` raises `ValueError` because host bits are set). -/
theorem claim7_invalid_range_rejected_witness :
    (∃ e, main_with_args ⟨true, none⟩ ⟨true, some defaultNet2⟩ none
      (fun _ _ => 1) = Except.error e) ∧
    pings_spawned ⟨true, none⟩ ⟨true, some defaultNet2⟩ none
      (fun _ _ => 1) = 0 :=
  claim7_invalid_range_rejected ⟨true, none⟩ ⟨true, some defaultNet2⟩ none
    (fun _ _ => 1) (Or.inr (Or.inl rfl))

/-- Witness for C1 at concrete failure lists: offset 7 fails only in the
first list, so it is classified into `onlyA`. -/
theorem claim1_classification_witness :
    (7 : Nat) ∈ (print_results [(7, mkAddr defaultNet1 7)] []).2.2.1 :=
  ((claim1_classification [(7, mkAddr defaultNet1 7)] []).2.2.2.1 7).mpr
    ⟨by decide, by decide⟩

/-- Witness for C5 at a concrete sweep: excluding offset 42 with every
probe failing, a recorded failure's offset differs from 42 and 42 is not in
`common`. -/
theorem claim5_excluded_offset_witness :
    ((7, mkAddr defaultNet1 7) : Nat × IPv4).1 ≠ 42 ∧
    (42 : Nat) ∉ (initiate_ping_queues defaultNet1 defaultNet2 (some 42)
      fun _ _ => 1).2.2.2.2 :=
  ⟨(claim5_excluded_offset defaultNet1 defaultNet2 42 fun _ _ => 1).1
      (7, mkAddr defaultNet1 7) (by decide),
    (claim5_excluded_offset defaultNet1 defaultNet2 42 fun _ _ => 1).2.2.2.2⟩

/-- Witness for C9 at a concrete sweep: the failure entry for offset 7 of
the first default range is an enumerated tuple whose address has final
octet 7 and the range's network part. -/
theorem claim9_failure_entries_witness :
    ((7, mkAddr defaultNet1 7) : Nat × IPv4) ∈ rangeTargets defaultNet1 none ∧
    ((7, mkAddr defaultNet1 7) : Nat × IPv4).2.d
      = ((7, mkAddr defaultNet1 7) : Nat × IPv4).1 ∧
    ((7, mkAddr defaultNet1 7) : Nat × IPv4).2.a = defaultNet1.p1 ∧
    ((7, mkAddr defaultNet1 7) : Nat × IPv4).2.b = defaultNet1.p2 ∧
    ((7, mkAddr defaultNet1 7) : Nat × IPv4).2.c = defaultNet1.p3 :=
  (claim9_failure_entries defaultNet1 defaultNet2 none fun _ _ => 1).1
    (7, mkAddr defaultNet1 7) (by decide)

/-- Witness for C10 at concrete failure lists: the first input list is
returned unchanged and offset 7 is not in both `onlyA` and `onlyB`. -/
theorem claim10_disjoint_and_unchanged_witness :
    (print_results [(7, mkAddr defaultNet1 7)] []).1
      = [(7, mkAddr defaultNet1 7)] ∧
    ¬((7 : Nat) ∈ (print_results [(7, mkAddr defaultNet1 7)] []).2.2.1 ∧
      (7 : Nat) ∈ (print_results [(7, mkAddr defaultNet1 7)] []).2.2.2.1) :=
  ⟨(claim10_disjoint_and_unchanged [(7, mkAddr defaultNet1 7)] []).1,
    (claim10_disjoint_and_unchanged [(7, mkAddr defaultNet1 7)] []).2.2.1 7⟩

end Mpts
